import Mathlib

/-!
Verification of the `oproperty` attribute-override descriptor
(src/oproperty.py) against its specification.

Shallow embedding choices:
* Classes are identified by `ClassId := Nat`.  A `ClassEnv` maps each class
  id to its own member dictionary (`__dict__`), an association list from
  attribute names to the descriptors stored there.
* An instance is represented by its own dictionary `ObjDict` (its
  `__dict__`), an association list from names to integer values.
* Stateful, possibly failing computations on one instance are modelled by
  explicit state passing: `M a := ObjDict -> Except PyError (a × ObjDict)`.
* Python exception classes are modelled by the kind of error only
  (`RuntimeError`, `AttributeError`, `NameError`); the message texts of the
  source are recorded in comments.
* User handlers (`fget`, `fset`, `fdel`) are Lean functions carrying the
  Python function's `__name__` (needed by `oproperty.__init__` for name
  inference).  A get handler receives the zero-argument `orig` callable,
  a set handler receives the value and the one-argument `orig` callable,
  mirroring `fget(obj, orig)`, `fset(obj, value, orig)`; the instance
  (`obj` / `self`) is carried implicitly by the state monad.
* The recursion through chained descriptors (an `oproperty` whose chain
  lookup finds another `oproperty`) is bounded by explicit fuel; exhausting
  it models Python's `RecursionError`.
-/

/-- A class identity (`==` between classes in the source is identity). -/
abbrev ClassId := Nat

/-- Attribute values stored in instances (the tests use integers). -/
abbrev Value := Int

/-- An instance's own `__dict__`. -/
abbrev ObjDict := List (String × Value)

/-- The kinds of Python exceptions the embedded code can raise. -/
inductive PyError where
  /-- `RuntimeError` (both configuration errors of the source). -/
  | runtimeError : PyError
  /-- `AttributeError` (missing attribute, unreadable or unsettable). -/
  | attributeError : PyError
  /-- `NameError` (loop variable unbound: only reachable on an empty MRO). -/
  | nameError : PyError
  /-- `RecursionError` (modelled by fuel exhaustion). -/
  | recursionError : PyError
  deriving DecidableEq, Repr

/-- A stateful computation over one instance's dictionary. -/
abbrev M (a : Type) := ObjDict → Except PyError (a × ObjDict)

/-- Raise an exception. -/
def Mthrow (e : PyError) : M a := fun _ => Except.error e

/-- A user get handler: the Python function `fget(self, orig)`, together
with its `__name__`. -/
structure GetFn where
  name : String
  fn : (Unit → M Value) → M Value

/-- A user set handler: the Python function `fset(self, value, orig)`,
together with its `__name__`. -/
structure SetFn where
  name : String
  fn : Value → (Value → M Unit) → M Unit

/-- A user delete handler: the Python function `fdel(self, orig)`, together
with its `__name__`. -/
structure DelFn where
  name : String
  fn : (Unit → M Unit) → M Unit

/-- A builtin `property` object: up to three accessor functions. -/
structure PyProperty where
  pget : Option (M Value)
  pset : Option (Value → M Unit)
  pdel : Option (M Unit)

/-- The `oproperty` descriptor: three optional user handlers, the stored
doc string, the target attribute name `_prop_name` and the bound class
`__class_type` (`none` until `set_class_type` runs). -/
structure oproperty where
  fget : Option GetFn
  fset : Option SetFn
  fdel : Option DelFn
  doc : Option String
  prop_name : String
  class_type : Option ClassId

/-- An entry of a class's `__dict__`: the descriptors the tests store there
are builtin properties and `oproperty` instances. -/
inductive Attr where
  | prop : PyProperty → Attr
  | oprop : oproperty → Attr

/-- Maps every class id to its own member dictionary (`__dict__`).  Every
id denotes a class, so the `isinstance(tmp, type)` guard of
`_get_super_attribute` is always true. -/
abbrev ClassEnv := ClassId → List (String × Attr)

/-- `oproperty.__init__(fget, fset, fdel, doc, name)` (lines 61-82): when no
explicit name is given the name is inferred from the first supplied
handler's `__name__`, checking `fget`, then `fset`, then `fdel`; with no
handler and no name it raises
`RuntimeError` (message: Cant create a property with no functions!). -/
def oproperty.make (fget : Option GetFn) (fset : Option SetFn)
    (fdel : Option DelFn) (doc : Option String) (name : Option String) :
    Except PyError oproperty :=
  let name1 : Option String :=
    match name with
    | some n => some n
    | none =>
      match fget with
      | some g => some g.name
      | none =>
        match fset with
        | some s => some s.name
        | none =>
          match fdel with
          | some d => some d.name
          | none => none
  match name1 with
  | some n =>
    Except.ok { fget := fget, fset := fset, fdel := fdel, doc := doc,
                prop_name := n, class_type := none }
  | none => Except.error PyError.runtimeError

/-- `oproperty.set_class_type(klass)` (lines 121-126). -/
def oproperty.set_class_type (o : oproperty) (k : ClassId) : oproperty :=
  { o with class_type := some k }

/-- `oproperty.getter(fget)` (lines 152-154): fills the get slot and
returns the descriptor. -/
def oproperty.getter (o : oproperty) (g : GetFn) : oproperty :=
  { o with fget := some g }

/-- `oproperty.setter(fset)` (lines 156-158). -/
def oproperty.setter (o : oproperty) (s : SetFn) : oproperty :=
  { o with fset := some s }

/-- `oproperty.deleter(fdel)` (lines 160-162). -/
def oproperty.deleter (o : oproperty) (d : DelFn) : oproperty :=
  { o with fdel := some d }

/-- The first loop of `_get_super_attribute` (lines 139-141): scan the MRO
for the bound class and break at its position.  When the class never
matches, the Python loop variable is left at the last index
(`len(mro) - 1`); on an empty list the variable would be unbound, a case
handled separately by the caller. -/
def find_pos : List ClassId → ClassId → Nat
  | [], _ => 0
  | [_], _ => 0
  | c :: c1 :: rest, k => if c == k then 0 else find_pos (c1 :: rest) k + 1

/-- The second loop of `_get_super_attribute` (lines 144-148), which is
also how Python itself finds a data descriptor for an instance access:
return the first class in the list whose own `__dict__` directly contains
`name`, never consulting inherited entries. -/
def firstOwn (env : ClassEnv) : List ClassId → String → Option Attr
  | [], _ => none
  | c :: rest, name =>
    match (env c).lookup name with
    | some a => some a
    | none => firstOwn env rest name

/-- `oproperty._get_super_attribute(obj, name)` (lines 128-150): raise
`RuntimeError` (message: You must decorate class!) when the descriptor is
unbound; otherwise find the bound class's position in the MRO and return
the first own-dictionary entry for `name` strictly after it, or `None`.
An empty MRO (unreachable from real objects) would leave the loop variable
unbound and raise `NameError`. -/
def getSuperAttribute (ct : Option ClassId) (env : ClassEnv)
    (mro : List ClassId) (name : String) : Except PyError (Option Attr) :=
  match ct with
  | none => Except.error PyError.runtimeError
  | some c =>
    if mro.isEmpty then Except.error PyError.nameError
    else Except.ok (firstOwn env (mro.drop (find_pos mro c + 1)) name)

/-- `property.__get__` of a builtin property: raise `AttributeError`
(unreadable attribute) when no getter exists. -/
def propGet (p : PyProperty) : M Value :=
  match p.pget with
  | none => Mthrow PyError.attributeError
  | some g => g

/-- `property.__set__` of a builtin property: raise `AttributeError`
(cant set attribute) when no setter exists. -/
def propSet (p : PyProperty) (v : Value) : M Unit :=
  match p.pset with
  | none => Mthrow PyError.attributeError
  | some s => s v

/-- `property.__delete__` of a builtin property: raise `AttributeError`
(cant delete attribute) when no deleter exists. -/
def propDel (p : PyProperty) : M Unit :=
  match p.pdel with
  | none => Mthrow PyError.attributeError
  | some d => d

/-- `__get__` on a descriptor found for an instance access; for an
`oproperty` this is the `obj is not None` path of lines 88-97: resolve the
chain attribute eagerly, build the zero-argument `orig` closure (calling
`__get__` on `None` raises `AttributeError`), then run `fget` on it or run
it directly. -/
def attrGet (env : ClassEnv) (mro : List ClassId) : Nat → Attr → M Value
  | _, Attr.prop p => propGet p
  | 0, Attr.oprop _ => Mthrow PyError.recursionError
  | fuel + 1, Attr.oprop o =>
    match getSuperAttribute o.class_type env mro o.prop_name with
    | Except.error e => Mthrow e
    | Except.ok sa =>
      let orig : Unit → M Value := fun _ =>
        match sa with
        | none => Mthrow PyError.attributeError
        | some a => attrGet env mro fuel a
      match o.fget with
      | some f => f.fn orig
      | none => orig ()

/-- `__set__` on a descriptor found for an instance access; for an
`oproperty` this is lines 99-108, with the one-argument `orig` closure
`lambda val: super_attr.__set__(obj, val)`. -/
def attrSet (env : ClassEnv) (mro : List ClassId) : Nat → Attr → Value → M Unit
  | _, Attr.prop p, v => propSet p v
  | 0, Attr.oprop _, _ => Mthrow PyError.recursionError
  | fuel + 1, Attr.oprop o, v =>
    match getSuperAttribute o.class_type env mro o.prop_name with
    | Except.error e => Mthrow e
    | Except.ok sa =>
      let orig : Value → M Unit := fun w =>
        match sa with
        | none => Mthrow PyError.attributeError
        | some a => attrSet env mro fuel a w
      match o.fset with
      | some f => f.fn v orig
      | none => orig v

/-- `__delete__` on a descriptor found for an instance access; for an
`oproperty` this is lines 110-119. -/
def attrDel (env : ClassEnv) (mro : List ClassId) : Nat → Attr → M Unit
  | _, Attr.prop p => propDel p
  | 0, Attr.oprop _ => Mthrow PyError.recursionError
  | fuel + 1, Attr.oprop o =>
    match getSuperAttribute o.class_type env mro o.prop_name with
    | Except.error e => Mthrow e
    | Except.ok sa =>
      let orig : Unit → M Unit := fun _ =>
        match sa with
        | none => Mthrow PyError.attributeError
        | some a => attrDel env mro fuel a
      match o.fdel with
      | some f => f.fn orig
      | none => orig ()

/-- The `orig` closure built by `__get__` for a resolved chain attribute
(line 95): invoking it on `None` raises `AttributeError`; otherwise it
performs the chain attribute's get. -/
def origGet (env : ClassEnv) (mro : List ClassId) (fuel : Nat)
    (sa : Option Attr) : Unit → M Value :=
  fun _ =>
    match sa with
    | none => Mthrow PyError.attributeError
    | some a => attrGet env mro fuel a

/-- The `orig` closure built by `__set__` (line 106). -/
def origSet (env : ClassEnv) (mro : List ClassId) (fuel : Nat)
    (sa : Option Attr) : Value → M Unit :=
  fun w =>
    match sa with
    | none => Mthrow PyError.attributeError
    | some a => attrSet env mro fuel a w

/-- The `orig` closure built by `__delete__` (line 117). -/
def origDel (env : ClassEnv) (mro : List ClassId) (fuel : Nat)
    (sa : Option Attr) : Unit → M Unit :=
  fun _ =>
    match sa with
    | none => Mthrow PyError.attributeError
    | some a => attrDel env mro fuel a

/-- The full `oproperty.__get__(obj, type)` (lines 84-97), including the
`obj is None` branch of lines 85-87, which returns the descriptor itself
(`Sum.inl`); with an instance it yields a value and the updated instance
dictionary (`Sum.inr`). -/
def oproperty.dunder_get (env : ClassEnv) (mro : List ClassId) (fuel : Nat)
    (o : oproperty) (obj : Option ObjDict) :
    Except PyError (oproperty ⊕ (Value × ObjDict)) :=
  match obj with
  | none => Except.ok (Sum.inl o)
  | some st => (attrGet env mro (fuel + 1) (Attr.oprop o) st).map Sum.inr

/-- Update or insert a key in an instance dictionary (a plain
`self.name = v` assignment when no data descriptor intercepts it). -/
def dictSet (name : String) (v : Value) : ObjDict → ObjDict
  | [] => [(name, v)]
  | (k, w) :: rest =>
    if k == name then (k, v) :: rest else (k, w) :: dictSet name v rest

/-- An ordinary attribute read `obj.name`: Python finds the first data
descriptor for `name` in the type's MRO (the same own-dictionary scan as
`firstOwn`) and calls its `__get__`; with no descriptor it reads the
instance dictionary, raising `AttributeError` when the key is absent. -/
def instGetAttr (env : ClassEnv) (mro : List ClassId) (fuel : Nat)
    (name : String) : M Value :=
  fun st =>
    match firstOwn env mro name with
    | some a => attrGet env mro fuel a st
    | none =>
      match st.lookup name with
      | some v => Except.ok (v, st)
      | none => Except.error PyError.attributeError

/-- An ordinary attribute write `obj.name = v`: a data descriptor for
`name` in the type's MRO intercepts it, otherwise the instance dictionary
is updated. -/
def instSetAttr (env : ClassEnv) (mro : List ClassId) (fuel : Nat)
    (name : String) (v : Value) : M Unit :=
  fun st =>
    match firstOwn env mro name with
    | some a => attrSet env mro fuel a v st
    | none => Except.ok ((), dictSet name v st)

/-- The `property_overriding` class decorator (lines 192-197): stamp every
`oproperty` in the class's own dictionary with the class. -/
def property_overriding (d : List (String × Attr)) (k : ClassId) :
    List (String × Attr) :=
  d.map fun nv =>
    match nv with
    | (n, Attr.oprop o) => (n, Attr.oprop (o.set_class_type k))
    | x => x

/-- Modelled from the spec words of the resolution algorithm, for
comparison with `getSuperAttribute`: take the MRO, find the position of
the bound class, scan strictly after that position and return the first
ancestor's own-dictionary entry for the name; nothing when no such
ancestor exists. -/
def specResolve (env : ClassEnv) (mro : List ClassId) (c : ClassId)
    (name : String) : Option Attr :=
  match (mro.drop (mro.indexOf c + 1)).find?
      (fun k => ((env k).lookup name).isSome) with
  | some k => (env k).lookup name
  | none => none

/-!
The concrete two-level scenario of `src/tests.py`, `TestBasicImplementation`
(lines 5-45): `BaseClass` stores its state in `self.val` and exposes the
property `prop` (getter returns `self.val`, setter stores the value,
deleter resets it to 0); `DerivedClass` overrides `prop` with an
`oproperty` whose getter returns `orig() + 1` and whose setter delegates
`orig(val - 10)`.  Class ids: `DerivedClass = 1`, `BaseClass = 0`,
`object = 2`; the MRO of `DerivedClass` is `[1, 0, 2]`.
-/

/-- The `prop` property of `BaseClass` (tests.py lines 10-20). -/
def baseProp : PyProperty where
  pget := some fun st =>
    match st.lookup "val" with
    | some v => Except.ok (v, st)
    | none => Except.error PyError.attributeError
  pset := some fun v st => Except.ok ((), dictSet "val" v st)
  pdel := some fun st => Except.ok ((), dictSet "val" 0 st)

/-- The `oproperty` declared in `DerivedClass` (tests.py lines 27-33),
before the decorator binds it: getter `orig() + 1`, setter
`orig(val - 10)`. -/
def derivedOp : oproperty where
  fget := some ⟨"prop", fun orig st =>
    match orig () st with
    | Except.error e => Except.error e
    | Except.ok (v, st1) => Except.ok (v + 1, st1)⟩
  fset := some ⟨"prop", fun v orig => orig (v - 10)⟩
  fdel := none
  doc := none
  prop_name := "prop"
  class_type := none

/-- The class environment of the scenario; `DerivedClass`'s dictionary is
produced by the `property_overriding` decorator, binding the descriptor to
class 1. -/
def envT : ClassEnv := fun c =>
  match c with
  | 0 => [("prop", Attr.prop baseProp)]
  | 1 => property_overriding [("prop", Attr.oprop derivedOp)] 1
  | _ => []

/-- The MRO of `DerivedClass`. -/
def mroT : List ClassId := [1, 0, 2]

/-- The descriptor of `DerivedClass` after the decorator has bound it. -/
def derivedOpB : oproperty := derivedOp.set_class_type 1

/-- The get-only descriptor of `tests.py`, `test_readonly` (lines 161-170),
bound to its declaring class (id 3): no set handler, and no ancestor
defines `readonly`. -/
def readonlyOp : oproperty where
  fget := some ⟨"readonly", fun orig st =>
    match orig () st with
    | Except.error e => Except.error e
    | Except.ok (v, st1) => Except.ok (v + 1, st1)⟩
  fset := none
  fdel := none
  doc := none
  prop_name := "readonly"
  class_type := some 3

/-- When the target class occurs in the list, the position at which the
first loop of `_get_super_attribute` breaks is its first index. -/
theorem find_pos_eq_indexOf :
    ∀ (mro : List ClassId) (c : ClassId), c ∈ mro →
      find_pos mro c = mro.indexOf c
  | [], c, h => absurd h (List.not_mem_nil c)
  | [x], c, h => by
    have hx : x = c := by simpa [eq_comm] using h
    subst hx
    simp [find_pos, List.indexOf_cons_self]
  | x :: y :: rest, c, h => by
    by_cases hx : x = c
    · subst hx
      simp [find_pos, List.indexOf_cons_self]
    · have hc : c ∈ y :: rest := by
        rcases List.mem_cons.mp h with h1 | h1
        · exact absurd h1.symm hx
        · exact h1
      have ih := find_pos_eq_indexOf (y :: rest) c hc
      simp [find_pos, hx, ih, List.indexOf_cons_ne _ hx]

/-- When the target class does not occur, the loop variable is left at the
last index. -/
theorem find_pos_of_not_mem :
    ∀ (mro : List ClassId) (c : ClassId), c ∉ mro →
      find_pos mro c = mro.length - 1
  | [], _, _ => rfl
  | [_], _, _ => rfl
  | x :: y :: rest, c, h => by
    have hx : ¬x = c := fun hxc => h (hxc ▸ List.mem_cons_self x (y :: rest))
    have hc : c ∉ y :: rest := fun hm => h (List.mem_cons_of_mem x hm)
    have ih := find_pos_of_not_mem (y :: rest) c hc
    simp [find_pos, hx, ih]

/-- The own-dictionary scan agrees with the spec-side formulation via
`List.find?`. -/
theorem firstOwn_eq_find (env : ClassEnv) (name : String) :
    ∀ l : List ClassId,
      firstOwn env l name =
        match l.find? (fun k => ((env k).lookup name).isSome) with
        | some k => (env k).lookup name
        | none => none
  | [] => rfl
  | c :: rest => by
    cases hl : (env c).lookup name with
    | some a => simp [firstOwn, List.find?_cons, hl]
    | none => simp [firstOwn, List.find?_cons, hl, firstOwn_eq_find env name rest]

/-- C1: for every instance access (get, set or delete) on a bound
descriptor, `_get_super_attribute` resolves the chain target as the spec
describes: find the bound class's position in the instance's type's MRO,
scan strictly after it and return the first ancestor's own-dictionary
entry for the target name (never an inherited one); when no ancestor
beyond the bound class directly defines the name the resolution returns
nothing without raising, and the failure surfaces only when the `orig`
chain accessor (of any of the three operations, all of which share this
resolution) is actually invoked. -/
theorem C1_chain_resolution (env : ClassEnv) (mro : List ClassId)
    (c : ClassId) (name : String) (st : ObjDict) (v : Value) (fuel : Nat)
    (h : c ∈ mro) :
    getSuperAttribute (some c) env mro name =
      Except.ok (specResolve env mro c name) ∧
    (specResolve env mro c name = none →
      origGet env mro fuel none () st = Except.error PyError.attributeError ∧
      origSet env mro fuel none v st = Except.error PyError.attributeError ∧
      origDel env mro fuel none () st = Except.error PyError.attributeError) := by
  constructor
  · cases mro with
    | nil => exact absurd h (List.not_mem_nil c)
    | cons x rest =>
      show Except.ok (firstOwn env ((x :: rest).drop (find_pos (x :: rest) c + 1)) name) = _
      rw [find_pos_eq_indexOf _ _ h, firstOwn_eq_find, specResolve]
  · intro _
    exact ⟨rfl, rfl, rfl⟩

theorem C1_chain_resolution_witness :
    (1 : ClassId) ∈ mroT ∧
    (getSuperAttribute (some 1) envT mroT "prop" =
        Except.ok (specResolve envT mroT 1 "prop") ∧
      (specResolve envT mroT 1 "prop" = none →
        origGet envT mroT 0 none () [] = Except.error PyError.attributeError ∧
        origSet envT mroT 0 none 0 [] = Except.error PyError.attributeError ∧
        origDel envT mroT 0 none () [] = Except.error PyError.attributeError)) :=
  ⟨by decide, C1_chain_resolution envT mroT 1 "prop" [] 0 0 (by decide)⟩

/-- C2: for every bound descriptor (bound class present in the MRO) and
every instance access, `__get__` first resolves the chain attribute; with
a get handler it returns the handler applied to the zero-argument `orig`
callable that performs the chain's get, and with no get handler it
performs the chain's get directly. -/
theorem C2_get_dispatch (env : ClassEnv) (mro : List ClassId) (fuel : Nat)
    (o : oproperty) (c : ClassId)
    (h1 : o.class_type = some c) (h2 : c ∈ mro) :
    ∃ sa, getSuperAttribute o.class_type env mro o.prop_name = Except.ok sa ∧
      (∀ f, o.fget = some f →
        attrGet env mro (fuel + 1) (Attr.oprop o) =
          f.fn (origGet env mro fuel sa)) ∧
      (o.fget = none →
        attrGet env mro (fuel + 1) (Attr.oprop o) =
          origGet env mro fuel sa ()) := by
  cases mro with
  | nil => exact absurd h2 (List.not_mem_nil c)
  | cons x rest =>
    have hsa : getSuperAttribute (some c) env (x :: rest) o.prop_name =
        Except.ok (firstOwn env
          ((x :: rest).drop (find_pos (x :: rest) c + 1)) o.prop_name) := rfl
    refine ⟨firstOwn env ((x :: rest).drop (find_pos (x :: rest) c + 1))
        o.prop_name, ?_, ?_, ?_⟩
    · rw [h1]
      exact hsa
    · intro f hf
      simp only [attrGet, h1, hsa, hf]
      rfl
    · intro hf
      simp only [attrGet, h1, hsa, hf]
      rfl

theorem C2_get_dispatch_witness :
    derivedOpB.class_type = some 1 ∧ (1 : ClassId) ∈ mroT ∧
    (∃ sa, getSuperAttribute derivedOpB.class_type envT mroT
        derivedOpB.prop_name = Except.ok sa ∧
      (∀ f, derivedOpB.fget = some f →
        attrGet envT mroT 1 (Attr.oprop derivedOpB) =
          f.fn (origGet envT mroT 0 sa)) ∧
      (derivedOpB.fget = none →
        attrGet envT mroT 1 (Attr.oprop derivedOpB) =
          origGet envT mroT 0 sa ())) :=
  ⟨rfl, by decide, C2_get_dispatch envT mroT 0 derivedOpB 1 rfl (by decide)⟩

/-- C3: accessing an unbound descriptor (the class was never decorated)
fails with the configuration `RuntimeError` for all three of get, set and
delete, even when handlers were supplied. -/
theorem C3_unbound_access (env : ClassEnv) (mro : List ClassId) (fuel : Nat)
    (o : oproperty) (v : Value) (st : ObjDict) (h : o.class_type = none) :
    attrGet env mro (fuel + 1) (Attr.oprop o) st =
      Except.error PyError.runtimeError ∧
    attrSet env mro (fuel + 1) (Attr.oprop o) v st =
      Except.error PyError.runtimeError ∧
    attrDel env mro (fuel + 1) (Attr.oprop o) st =
      Except.error PyError.runtimeError := by
  refine ⟨?_, ?_, ?_⟩ <;>
    simp only [attrGet, attrSet, attrDel, getSuperAttribute, h, Mthrow]

theorem C3_unbound_access_witness :
    derivedOp.class_type = none ∧
    (attrGet envT mroT 1 (Attr.oprop derivedOp) [("val", 123)] =
      Except.error PyError.runtimeError ∧
    attrSet envT mroT 1 (Attr.oprop derivedOp) 7 [("val", 123)] =
      Except.error PyError.runtimeError ∧
    attrDel envT mroT 1 (Attr.oprop derivedOp) [("val", 123)] =
      Except.error PyError.runtimeError) :=
  ⟨rfl, C3_unbound_access envT mroT 0 derivedOp 7 [("val", 123)] rfl⟩

/-- C4: construction raises the configuration `RuntimeError` exactly when
no handler and no explicit name is supplied; with at least one of them it
succeeds. -/
theorem C4_construction_error_iff (fg : Option GetFn) (fs : Option SetFn)
    (fd : Option DelFn) (doc : Option String) (nm : Option String) :
    oproperty.make fg fs fd doc nm = Except.error PyError.runtimeError ↔
      fg = none ∧ fs = none ∧ fd = none ∧ nm = none := by
  cases nm <;> cases fg <;> cases fs <;> cases fd <;> simp [oproperty.make]

/-- C5: the target name is the explicit name when one is given, taking
precedence over every handler identifier; otherwise it is the identifier
of the first supplied handler, checked in get, set, delete order. -/
theorem C5_name_precedence (fg : Option GetFn) (fs : Option SetFn)
    (fd : Option DelFn) (doc : Option String) (n : String)
    (g : GetFn) (s : SetFn) (d : DelFn) :
    (∃ o, oproperty.make fg fs fd doc (some n) = Except.ok o ∧
      o.prop_name = n) ∧
    (∃ o, oproperty.make (some g) fs fd doc none = Except.ok o ∧
      o.prop_name = g.name) ∧
    (∃ o, oproperty.make none (some s) fd doc none = Except.ok o ∧
      o.prop_name = s.name) ∧
    (∃ o, oproperty.make none none (some d) doc none = Except.ok o ∧
      o.prop_name = d.name) :=
  ⟨⟨_, rfl, rfl⟩, ⟨_, rfl, rfl⟩, ⟨_, rfl, rfl⟩, ⟨_, rfl, rfl⟩⟩

/-- C6: for a bound descriptor with no set handler, a write is delegated
directly to the chain attribute found by resolution; when that attribute
is missing, or is a property without a setter, the write fails with the
`AttributeError` of an unwritable attribute. -/
theorem C6_set_without_handler (env : ClassEnv) (mro : List ClassId)
    (fuel : Nat) (o : oproperty) (c : ClassId) (v : Value)
    (h1 : o.class_type = some c) (h2 : c ∈ mro) (h3 : o.fset = none) :
    ∃ sa, getSuperAttribute o.class_type env mro o.prop_name = Except.ok sa ∧
      attrSet env mro (fuel + 1) (Attr.oprop o) v = origSet env mro fuel sa v ∧
      (∀ st, sa = none →
        attrSet env mro (fuel + 1) (Attr.oprop o) v st =
          Except.error PyError.attributeError) ∧
      (∀ st p, sa = some (Attr.prop p) → p.pset = none →
        attrSet env mro (fuel + 1) (Attr.oprop o) v st =
          Except.error PyError.attributeError) := by
  cases mro with
  | nil => exact absurd h2 (List.not_mem_nil c)
  | cons x rest =>
    have hsa : getSuperAttribute (some c) env (x :: rest) o.prop_name =
        Except.ok (firstOwn env
          ((x :: rest).drop (find_pos (x :: rest) c + 1)) o.prop_name) := rfl
    have hdeleg : attrSet env (x :: rest) (fuel + 1) (Attr.oprop o) v =
        origSet env (x :: rest) fuel
          (firstOwn env ((x :: rest).drop (find_pos (x :: rest) c + 1))
            o.prop_name) v := by
      simp only [attrSet, h1, hsa, h3]
      rfl
    refine ⟨firstOwn env ((x :: rest).drop (find_pos (x :: rest) c + 1))
        o.prop_name, ?_, hdeleg, ?_, ?_⟩
    · rw [h1]
      exact hsa
    · intro st hnone
      rw [hdeleg, hnone]
      rfl
    · intro st p hp hset
      rw [hdeleg, hp]
      have hps : origSet env (x :: rest) fuel (some (Attr.prop p)) v st =
          propSet p v st := by
        show attrSet env (x :: rest) fuel (Attr.prop p) v st = propSet p v st
        cases fuel <;> rfl
      rw [hps]
      simp only [propSet, hset]
      rfl

theorem C6_set_without_handler_witness :
    readonlyOp.class_type = some 3 ∧ (3 : ClassId) ∈ [3, 0, 2] ∧
      readonlyOp.fset = none ∧
    (∃ sa, getSuperAttribute readonlyOp.class_type envT [3, 0, 2]
        readonlyOp.prop_name = Except.ok sa ∧
      attrSet envT [3, 0, 2] 1 (Attr.oprop readonlyOp) 7 =
        origSet envT [3, 0, 2] 0 sa 7 ∧
      (∀ st, sa = none →
        attrSet envT [3, 0, 2] 1 (Attr.oprop readonlyOp) 7 st =
          Except.error PyError.attributeError) ∧
      (∀ st p, sa = some (Attr.prop p) → p.pset = none →
        attrSet envT [3, 0, 2] 1 (Attr.oprop readonlyOp) 7 st =
          Except.error PyError.attributeError)) :=
  ⟨rfl, by decide, rfl,
    C6_set_without_handler envT [3, 0, 2] 0 readonlyOp 3 7 rfl (by decide) rfl⟩

/-- C7: the two-level scenario of `TestBasicImplementation`: reading the
derived instance's `prop` yields the stored base value plus 1, and
writing `v` stores `v - 10` in the base state. -/
theorem C7_two_level_chain (b v : Int) :
    instGetAttr envT mroT 5 "prop" [("val", b)] =
      Except.ok (b + 1, [("val", b)]) ∧
    instSetAttr envT mroT 5 "prop" v [("val", b)] =
      Except.ok ((), [("val", v - 10)]) :=
  ⟨rfl, rfl⟩

/-- C8: `getter`, `setter` and `deleter` return the descriptor with only
the corresponding handler slot filled; the other handler slots, the doc
string, the target name and the bound-class reference are unchanged. -/
theorem C8_attachment_slots (o : oproperty) (g : GetFn) (s : SetFn)
    (d : DelFn) :
    ((o.getter g).fget = some g ∧ (o.getter g).fset = o.fset ∧
      (o.getter g).fdel = o.fdel ∧ (o.getter g).doc = o.doc ∧
      (o.getter g).prop_name = o.prop_name ∧
      (o.getter g).class_type = o.class_type) ∧
    ((o.setter s).fset = some s ∧ (o.setter s).fget = o.fget ∧
      (o.setter s).fdel = o.fdel ∧ (o.setter s).doc = o.doc ∧
      (o.setter s).prop_name = o.prop_name ∧
      (o.setter s).class_type = o.class_type) ∧
    ((o.deleter d).fdel = some d ∧ (o.deleter d).fget = o.fget ∧
      (o.deleter d).fset = o.fset ∧ (o.deleter d).doc = o.doc ∧
      (o.deleter d).prop_name = o.prop_name ∧
      (o.deleter d).class_type = o.class_type) :=
  ⟨⟨rfl, rfl, rfl, rfl, rfl, rfl⟩, ⟨rfl, rfl, rfl, rfl, rfl, rfl⟩,
    ⟨rfl, rfl, rfl, rfl, rfl, rfl⟩⟩

/-- C9: `__get__` invoked with no instance (class-level access) returns
the descriptor object itself and never fails, whether or not the
descriptor is bound. -/
theorem C9_class_level_get (env : ClassEnv) (mro : List ClassId)
    (fuel : Nat) (o : oproperty) :
    oproperty.dunder_get env mro fuel o none = Except.ok (Sum.inl o) := rfl

/-- C10: when the bound class does not occur in the (nonempty) MRO at all,
the resolution scans zero ancestors and silently returns nothing instead
of raising; the failure occurs only when the chain accessor is invoked. -/
theorem C10_class_not_in_mro (env : ClassEnv) (mro : List ClassId)
    (c : ClassId) (name : String) (fuel : Nat) (st : ObjDict)
    (h1 : c ∉ mro) (h2 : mro ≠ []) :
    getSuperAttribute (some c) env mro name = Except.ok none ∧
    origGet env mro fuel none () st = Except.error PyError.attributeError := by
  refine ⟨?_, rfl⟩
  cases mro with
  | nil => exact absurd rfl h2
  | cons x rest =>
    show Except.ok (firstOwn env
      ((x :: rest).drop (find_pos (x :: rest) c + 1)) name) = _
    rw [find_pos_of_not_mem _ _ h1]
    have hlen : (x :: rest).length - 1 + 1 = (x :: rest).length := rfl
    rw [hlen, List.drop_length]
    rfl

theorem C10_class_not_in_mro_witness :
    (5 : ClassId) ∉ mroT ∧ mroT ≠ [] ∧
    (getSuperAttribute (some 5) envT mroT "prop" = Except.ok none ∧
      origGet envT mroT 0 none () [] =
        Except.error PyError.attributeError) :=
  ⟨by decide, by decide,
    C10_class_not_in_mro envT mroT 5 "prop" 0 [] (by decide) (by decide)⟩
